import Mathlib

/-
Verification of the falling-body physics simulation core.

The embedding models JavaScript IEEE-754 double arithmetic over exact reals
extended with NaN and signed infinities (`JSNum`): finite arithmetic is exact
(rounding is abstracted away, the standard idealization), while the NaN/infinity
propagation rules and NaN-is-never-ordered comparison semantics are kept,
because the integrator's divergence guard and velocity clamp depend on them.

Sources embedded:
  - src/unnamed/part_000  : `stepPhysics` (guarded integrator with NaN reset and
    velocity clamp), the `animate` sub-step loop with `timeScale`, the
    `setHistory` sampler.
  - src/App.tsx           : the older `stepPhysics` (no guard, no clamp).
  - src/components/Graphs.tsx and src/unnamed/part_002 : the two terminal
    velocity reference-line computations of the charting boundary.
-/

noncomputable section

/-- Model of a JavaScript number: NaN, a signed infinity (`inf true` is `+∞`,
`inf false` is `-∞`), or a finite value taken to be an exact real. -/
inductive JSNum where
  | nan : JSNum
  | inf : Bool → JSNum
  | fin : ℝ → JSNum

namespace JSNum

/-- JavaScript `isNaN` (on numbers). -/
def isNaN : JSNum → Bool
  | nan => true
  | _ => false

/-- JavaScript `isFinite` (on numbers): false for NaN and both infinities. -/
def isFinite : JSNum → Bool
  | fin _ => true
  | _ => false

/-- Unary minus. -/
def neg : JSNum → JSNum
  | nan => nan
  | inf b => inf (!b)
  | fin x => fin (-x)

/-- IEEE addition: NaN propagates, opposite infinities give NaN, finite
addition is exact. -/
def add : JSNum → JSNum → JSNum
  | nan, _ => nan
  | _, nan => nan
  | inf b, inf c => if b = c then inf b else nan
  | inf b, fin _ => inf b
  | fin _, inf c => inf c
  | fin x, fin y => fin (x + y)

/-- IEEE subtraction, `a - b = a + (-b)`. -/
def sub (a b : JSNum) : JSNum := a.add b.neg

/-- IEEE multiplication: NaN propagates, `∞ * 0` is NaN, signs of infinities
combine, finite multiplication is exact. -/
def mul : JSNum → JSNum → JSNum
  | nan, _ => nan
  | _, nan => nan
  | inf b, inf c => inf (b == c)
  | inf b, fin x => if x = 0 then nan else if 0 < x then inf b else inf (!b)
  | fin x, inf c => if x = 0 then nan else if 0 < x then inf c else inf (!c)
  | fin x, fin y => fin (x * y)

/-- IEEE division: NaN propagates, `∞/∞` and `0/0` are NaN, a nonzero finite
value divided by zero is a signed infinity, finite division is exact. -/
def div : JSNum → JSNum → JSNum
  | nan, _ => nan
  | _, nan => nan
  | inf _, inf _ => nan
  | inf b, fin y => if 0 ≤ y then inf b else inf (!b)
  | fin _, inf _ => fin 0
  | fin x, fin y =>
      if y = 0 then (if x = 0 then nan else if 0 < x then inf true else inf false)
      else fin (x / y)

/-- JavaScript `Math.sign`. -/
def sign : JSNum → JSNum
  | nan => nan
  | inf b => fin (if b then 1 else -1)
  | fin x => fin (if x < 0 then -1 else if 0 < x then 1 else 0)

/-- JavaScript `Math.abs`. -/
def abs : JSNum → JSNum
  | nan => nan
  | inf _ => inf true
  | fin x => fin |x|

/-- JavaScript `<` : any comparison involving NaN is false. -/
def jlt : JSNum → JSNum → Bool
  | nan, _ => false
  | _, nan => false
  | inf b, inf c => !b && c
  | inf b, fin _ => !b
  | fin _, inf c => c
  | fin x, fin y => decide (x < y)

/-- JavaScript `<=` : any comparison involving NaN is false. -/
def jle : JSNum → JSNum → Bool
  | nan, _ => false
  | _, nan => false
  | inf b, inf c => !b || c
  | inf b, fin _ => !b
  | fin _, inf c => c
  | fin x, fin y => decide (x ≤ y)

/-- JavaScript `===` on numbers: NaN is not equal to anything, including
itself. -/
def beq : JSNum → JSNum → Bool
  | fin x, fin y => decide (x = y)
  | inf b, inf c => b == c
  | _, _ => false

end JSNum

/-- Parameter record from src/types.ts (plus `timeScale`, which the newer
variant reads from `params` with default 1.0, see src/unnamed/part_000 and the
constants file); all externally supplied finite values. -/
structure SimulationParams where
  mass : ℝ
  height : ℝ
  dragCoeff : ℝ
  airDensity : ℝ
  diameter : ℝ
  gravity : ℝ
  timeScale : ℝ

/-- Parameter invariants from spec section 3: mass, height, diameter, gravity
and timeScale positive, drag coefficient and air density nonnegative. -/
def ValidParams (p : SimulationParams) : Prop :=
  0 < p.mass ∧ 0 < p.height ∧ 0 ≤ p.dragCoeff ∧ 0 ≤ p.airDensity ∧
    0 < p.diameter ∧ 0 < p.gravity ∧ 0 < p.timeScale

/-- Simulation state record from src/types.ts. -/
structure SimulationState where
  time : JSNum
  y : JSNum
  v : JSNum
  a : JSNum
  hasLanded : Bool

/-- Trajectory sample record from src/types.ts. -/
structure DataPoint where
  time : JSNum
  position : JSNum
  velocity : JSNum
  acceleration : JSNum

/-- Initial drop configuration: the state built by the emergency reset inside
`stepPhysics` (src/unnamed/part_000 lines 40-46), by `handleReset`, and at
mount. -/
def initialDropState (p : SimulationParams) : SimulationState :=
  { time := .fin 0, y := .fin p.height, v := .fin 0, a := .fin (-p.gravity),
    hasLanded := false }

/-- Integrator of src/unnamed/part_000 (`stepPhysics`, lines 32-102): landed
states are returned verbatim; NaN `y`, NaN `v` or non-finite `v` triggers the
emergency reset; otherwise gravity plus sign-opposed quadratic drag gives the
acceleration, semi-implicit Euler integrates it, the new velocity is clamped to
magnitude 500, and a new position at or below ground produces the terminal
state. -/
def stepPhysics (p : SimulationParams) (dt : ℝ) (s : SimulationState) :
    SimulationState :=
  if s.hasLanded then s
  else if s.y.isNaN || s.v.isNaN || !s.v.isFinite then initialDropState p
  else
    let Fg : ℝ := -p.mass * p.gravity
    let radius : ℝ := p.diameter / 2
    let area : ℝ := Real.pi * radius * radius
    let v := s.v
    let dragMagnitude :=
      (((JSNum.fin (0.5 * p.airDensity)).mul (v.mul v)).mul
        (JSNum.fin p.dragCoeff)).mul (JSNum.fin area)
    let dragForce :=
      if v.beq (JSNum.fin 0) then JSNum.fin 0 else (v.sign.neg).mul dragMagnitude
    let Fnet := (JSNum.fin Fg).add dragForce
    let a := Fnet.div (JSNum.fin p.mass)
    let newV0 := v.add (a.mul (JSNum.fin dt))
    let newV :=
      if (JSNum.fin 500).jlt newV0.abs then newV0.sign.mul (JSNum.fin 500)
      else newV0
    let newY := s.y.add (newV.mul (JSNum.fin dt))
    let newTime := s.time.add (JSNum.fin dt)
    if newY.jle (JSNum.fin 0) then
      { time := newTime, y := .fin 0, v := .fin 0, a := .fin 0, hasLanded := true }
    else
      { time := newTime, y := newY, v := newV, a := a, hasLanded := false }

/-- Integrator of src/App.tsx (`stepPhysics`, lines 30-79): identical force
model and integration, but with no divergence guard and no velocity clamp. -/
def stepPhysicsOld (p : SimulationParams) (dt : ℝ) (s : SimulationState) :
    SimulationState :=
  if s.hasLanded then s
  else
    let Fg : ℝ := -p.mass * p.gravity
    let radius : ℝ := p.diameter / 2
    let area : ℝ := Real.pi * radius * radius
    let v := s.v
    let dragMagnitude :=
      (((JSNum.fin (0.5 * p.airDensity)).mul (v.mul v)).mul
        (JSNum.fin p.dragCoeff)).mul (JSNum.fin area)
    let dragForce :=
      if v.beq (JSNum.fin 0) then JSNum.fin 0 else (v.sign.neg).mul dragMagnitude
    let Fnet := (JSNum.fin Fg).add dragForce
    let a := Fnet.div (JSNum.fin p.mass)
    let newV := v.add (a.mul (JSNum.fin dt))
    let newY := s.y.add (newV.mul (JSNum.fin dt))
    let newTime := s.time.add (JSNum.fin dt)
    if newY.jle (JSNum.fin 0) then
      { time := newTime, y := .fin 0, v := .fin 0, a := .fin 0, hasLanded := true }
    else
      { time := newTime, y := newY, v := newV, a := a, hasLanded := false }

/-- Real-valued sign, as `Math.sign` computes it on a finite value. -/
def sgn (x : ℝ) : ℝ := if x < 0 then -1 else if 0 < x then 1 else 0

/-- Acceleration the integrator derives from a finite velocity: the force block
of `stepPhysics` read over plain reals. -/
def codeAccel (p : SimulationParams) (v : ℝ) : ℝ :=
  (-p.mass * p.gravity +
    (if v = 0 then 0
     else -sgn v * (0.5 * p.airDensity * (v * v) * p.dragCoeff *
       (Real.pi * (p.diameter / 2) * (p.diameter / 2))))) / p.mass

/-- Clamped updated velocity of a guard-accepted finite step. -/
def newVel (p : SimulationParams) (dt v : ℝ) : ℝ :=
  if 500 < |v + codeAccel p v * dt| then sgn (v + codeAccel p v * dt) * 500
  else v + codeAccel p v * dt

/-- Updated position of a guard-accepted step (the incoming `y` may still be an
infinity, so this stays a `JSNum`). -/
def newPos (p : SimulationParams) (dt : ℝ) (s : SimulationState) (v : ℝ) : JSNum :=
  s.y.add (.fin (newVel p dt v * dt))

/-- Updated velocity as the older src/App.tsx integrator computes it: no clamp. -/
def unclampedVel (p : SimulationParams) (dt v : ℝ) : ℝ := v + codeAccel p v * dt

/-- Drag force exactly as the spec's section 4.1 words it: magnitude
`0.5 * airDensity * v² * dragCoeff * area` with `area = π*(diameter/2)²`,
direction `-sign(v)`, zero when `v = 0`. -/
def specDragForce (p : SimulationParams) (v : ℝ) : ℝ :=
  if v = 0 then 0
  else -sgn v * (0.5 * p.airDensity * v ^ 2 * p.dragCoeff *
    (Real.pi * (p.diameter / 2) ^ 2))

/-- Net acceleration as the spec's section 4.1 words it:
`(Fg + dragForce) / mass` with `Fg = -mass * gravity`. -/
def specAccel (p : SimulationParams) (v : ℝ) : ℝ :=
  (-p.mass * p.gravity + specDragForce p v) / p.mass

/-- Number of iterations of the sub-step loop of `animate`
(src/unnamed/part_000 lines 126-134): `while (remainingDt > 0) { const step =
Math.min(remainingDt, FIXED_STEP); ...; remainingDt -= step }` with
`FIXED_STEP = 0.01`. The loop count depends only on the initial budget. -/
def substepCount (d : ℝ) : ℕ :=
  if h : d ≤ 0 then 0
  else 1 + substepCount (d - min d 0.01)
termination_by Nat.ceil (d * 100)
decreasing_by
  push_neg at h
  rcases le_or_lt d 0.01 with h1 | h1
  · rw [min_eq_left h1]
    simp only [sub_self, zero_mul, Nat.ceil_zero]
    exact Nat.ceil_pos.mpr (by positivity)
  · rw [min_eq_right h1.le]
    have h3 : 1 ≤ Nat.ceil (d * 100) := Nat.one_le_ceil_iff.mpr (by linarith)
    have h4 : Nat.ceil ((d - 0.01) * 100) ≤ Nat.ceil (d * 100) - 1 := by
      rw [Nat.ceil_le, Nat.cast_sub h3]
      have := Nat.le_ceil (d * 100)
      push_cast
      linarith
    omega

/-- Scaled simulation-time budget of one `animate` tick (src/unnamed/part_000
lines 113-120): raw frame delta in seconds, clamped to 0.1, times `timeScale`;
then the number of sub-steps the tick runs. -/
def animateSubsteps (lastTime nowTime timeScale : ℝ) : ℕ :=
  substepCount (min ((nowTime - lastTime) / 1000) 0.1 * timeScale)

/-- Trajectory sample built from the current state (src/unnamed/part_000
lines 148-153). -/
def mkDataPoint (s : SimulationState) : DataPoint :=
  { time := s.time, position := s.y, velocity := s.v, acceleration := s.a }

/-- Sampling condition of the `setHistory` updater (src/unnamed/part_000 line
147): no prior point, or current time minus last sampled time exceeds 0.03 s,
or the state is landed. -/
def shouldSample (prev : List DataPoint) (s : SimulationState) : Bool :=
  match prev.getLast? with
  | none => true
  | some lastPoint => (JSNum.fin 0.03).jlt (s.time.sub lastPoint.time) || s.hasLanded

/-- History updater of one `animate` tick (src/unnamed/part_000 lines 145-161):
conditionally append the current sample, then `slice(length - 500)` once the
buffer exceeds 500 points. -/
def updateHistory (prev : List DataPoint) (s : SimulationState) : List DataPoint :=
  if shouldSample prev s then
    let newArr := prev ++ [mkDataPoint s]
    if 500 < newArr.length then newArr.drop (newArr.length - 500) else newArr
  else prev

/-- History contents after `handleReset` (src/unnamed/part_000 lines 208-213). -/
def resetHistory (p : SimulationParams) : List DataPoint :=
  [{ time := .fin 0, position := .fin p.height, velocity := .fin 0,
     acceleration := .fin (-p.gravity) }]

/-- Terminal-velocity reference value of the `Graphs` component in
src/unnamed/part_002 (lines 20-60): `sqrt((2mg)/(ρ·A·Cd))` when drag, density
and area are positive (with a vacuum-impact fallback value that is never
published), published exactly when `dragCoeff > 0 && airDensity > 0`. -/
def terminalVelocityPart002 (p : SimulationParams) : Option ℝ :=
  let radius := p.diameter / 2
  let area := Real.pi * radius * radius
  let vt :=
    if 0 < p.dragCoeff ∧ 0 < p.airDensity ∧ 0 < area then
      Real.sqrt (2 * p.mass * p.gravity / (p.airDensity * area * p.dragCoeff))
    else Real.sqrt (2 * p.gravity * p.height)
  if 0 < p.dragCoeff ∧ 0 < p.airDensity then some vt else none

/-- Terminal-velocity reference value of src/components/Graphs.tsx (lines
21-63): the same formula over safety-defaulted gravity and height, but only
published when it also lies strictly below the y-axis cap
`max(10, ceil(1.1·sqrt(2·g·h)))`. The source's `isFinite` checks are vacuous
over exact reals and are omitted. -/
def terminalVelocityGraphsTsx (p : SimulationParams) : Option ℝ :=
  let safeGravity := if 0 < p.gravity then p.gravity else 9.81
  let safeHeight := if 0 < p.height then p.height else 10
  let radius := p.diameter / 2
  let area := Real.pi * radius * radius
  let vt :=
    if 0 < p.dragCoeff ∧ 0 < p.airDensity ∧ 0 < area ∧ 0 < p.mass then
      Real.sqrt (2 * p.mass * safeGravity / (p.airDensity * area * p.dragCoeff))
    else 0
  let maxPossibleSpeed := Real.sqrt (2 * safeGravity * safeHeight)
  let axisMaxY : ℝ := max 10 ((Int.ceil (maxPossibleSpeed * 1.1) : ℤ) : ℝ)
  if 0 < p.dragCoeff ∧ 0 < p.airDensity ∧ vt < axisMaxY then some vt else none

/-- Terminal velocity exactly as the spec's section 6 words it:
`Vt = sqrt(2*mass*gravity / (airDensity*area*dragCoeff))`, `area = π*(d/2)²`. -/
def specTerminalVelocity (p : SimulationParams) : ℝ :=
  Real.sqrt (2 * p.mass * p.gravity /
    (p.airDensity * (Real.pi * (p.diameter / 2) ^ 2) * p.dragCoeff))

/-- DEFAULT_PARAMS of the constants file, with its `timeScale: 1.0`. -/
def DEFAULT_PARAMS : SimulationParams :=
  { mass := 10, height := 200, dragCoeff := 0.47, airDensity := 1.225,
    diameter := 0.5, gravity := 9.81, timeScale := 1 }

lemma sign_fin (x : ℝ) : (JSNum.fin x).sign = .fin (sgn x) := rfl

lemma isNaN_fin (x : ℝ) : (JSNum.fin x).isNaN = false := rfl

lemma isFinite_fin (x : ℝ) : (JSNum.fin x).isFinite = true := rfl

lemma neg_fin (x : ℝ) : (JSNum.fin x).neg = .fin (-x) := rfl

lemma add_fin_fin (x y : ℝ) : (JSNum.fin x).add (.fin y) = .fin (x + y) := rfl

lemma mul_fin_fin (x y : ℝ) : (JSNum.fin x).mul (.fin y) = .fin (x * y) := rfl

lemma div_fin_fin (x y : ℝ) (h : y ≠ 0) :
    (JSNum.fin x).div (.fin y) = .fin (x / y) := by
  simp [JSNum.div, h]

lemma abs_fin (x : ℝ) : (JSNum.fin x).abs = .fin |x| := rfl

lemma beq_fin_fin (x y : ℝ) : (JSNum.fin x).beq (.fin y) = decide (x = y) := rfl

lemma jlt_fin_fin (x y : ℝ) : (JSNum.fin x).jlt (.fin y) = decide (x < y) := rfl

lemma jle_fin_fin (x y : ℝ) : (JSNum.fin x).jle (.fin y) = decide (x ≤ y) := rfl

lemma ite_mul_push (c : Prop) [Decidable c] (a b d : JSNum) :
    (if c then a else b).mul d = if c then a.mul d else b.mul d := by
  split_ifs <;> rfl

lemma add_ite_push (c : Prop) [Decidable c] (a b d : JSNum) :
    d.add (if c then a else b) = if c then d.add a else d.add b := by
  split_ifs <;> rfl

lemma ite_jle_push (c : Prop) [Decidable c] (a b d : JSNum) :
    (if c then a else b).jle d = if c then a.jle d else b.jle d := by
  split_ifs <;> rfl

lemma stepPhysics_eval (p : SimulationParams) (dt : ℝ) (s : SimulationState)
    (hm : p.mass ≠ 0) (hl : s.hasLanded = false) (hy : s.y.isNaN = false)
    (vv : ℝ) (hv : s.v = .fin vv) :
    stepPhysics p dt s =
      if (newPos p dt s vv).jle (.fin 0) then
        { time := s.time.add (.fin dt), y := .fin 0, v := .fin 0, a := .fin 0,
          hasLanded := true }
      else
        { time := s.time.add (.fin dt), y := newPos p dt s vv,
          v := .fin (newVel p dt vv), a := .fin (codeAccel p vv),
          hasLanded := false } := by
  by_cases hvv : vv = 0 <;>
    simp [stepPhysics, hl, hy, hv, hvv, isNaN_fin, isFinite_fin,
      beq_fin_fin, mul_fin_fin, add_fin_fin, div_fin_fin, hm, abs_fin,
      jlt_fin_fin, jle_fin_fin, neg_fin, sign_fin, newPos, newVel, codeAccel,
      ite_mul_push, add_ite_push, ite_jle_push, ite_mul, mul_ite,
      apply_ite JSNum.fin]

lemma stepPhysicsOld_eval (p : SimulationParams) (dt : ℝ) (s : SimulationState)
    (hm : p.mass ≠ 0) (hl : s.hasLanded = false)
    (vv : ℝ) (hv : s.v = .fin vv) :
    stepPhysicsOld p dt s =
      if (s.y.add (.fin (unclampedVel p dt vv * dt))).jle (.fin 0) then
        { time := s.time.add (.fin dt), y := .fin 0, v := .fin 0, a := .fin 0,
          hasLanded := true }
      else
        { time := s.time.add (.fin dt),
          y := s.y.add (.fin (unclampedVel p dt vv * dt)),
          v := .fin (unclampedVel p dt vv), a := .fin (codeAccel p vv),
          hasLanded := false } := by
  by_cases hvv : vv = 0 <;>
    simp [stepPhysicsOld, hl, hv, hvv, isNaN_fin, isFinite_fin,
      beq_fin_fin, mul_fin_fin, add_fin_fin, div_fin_fin, hm, abs_fin,
      jlt_fin_fin, jle_fin_fin, neg_fin, sign_fin, unclampedVel, codeAccel,
      ite_mul_push, add_ite_push, ite_jle_push, ite_mul, mul_ite,
      apply_ite JSNum.fin]

/-- C1: for every landed state, every params value and every dt ≥ 0, both
integrator variants return the input state completely unchanged — y, v, a,
hasLanded and time are all identical to the input, so the terminal state is
absorbing with no time advance. -/
theorem landed_state_absorbing (p : SimulationParams) (dt : ℝ)
    (s : SimulationState) (_hdt : 0 ≤ dt) (hl : s.hasLanded = true) :
    stepPhysics p dt s = s ∧ stepPhysicsOld p dt s = s := by
  constructor <;> simp [stepPhysics, stepPhysicsOld, hl]

/-- Witness for C1 at the concrete landed state reached from a finished run. -/
theorem landed_state_absorbing_witness :
    stepPhysics DEFAULT_PARAMS 1
        { time := .fin 7, y := .fin 0, v := .fin 0, a := .fin 0,
          hasLanded := true } =
      { time := .fin 7, y := .fin 0, v := .fin 0, a := .fin 0,
        hasLanded := true } ∧
    stepPhysicsOld DEFAULT_PARAMS 1
        { time := .fin 7, y := .fin 0, v := .fin 0, a := .fin 0,
          hasLanded := true } =
      { time := .fin 7, y := .fin 0, v := .fin 0, a := .fin 0,
        hasLanded := true } :=
  landed_state_absorbing DEFAULT_PARAMS 1 _ (by norm_num) rfl

/-- C4: for every params value and every dt ≥ 0, a non-landed state whose y is
NaN, whose v is NaN, or whose v is non-finite is not integrated: `stepPhysics`
returns exactly the canonical initial-drop configuration
`{y: height, v: 0, a: -gravity, time: 0, hasLanded: false}` for the given
params, and being a total function it raises no error. -/
theorem divergence_guard_resets (p : SimulationParams) (dt : ℝ)
    (s : SimulationState) (_hdt : 0 ≤ dt) (hl : s.hasLanded = false)
    (hg : (s.y.isNaN || s.v.isNaN || !s.v.isFinite) = true) :
    stepPhysics p dt s =
      { time := .fin 0, y := .fin p.height, v := .fin 0,
        a := .fin (-p.gravity), hasLanded := false } := by
  simp [stepPhysics, hl, hg, initialDropState]

/-- Witness for C4: a mid-flight state whose velocity has become NaN is reset
to the initial drop configuration of the default params. -/
theorem divergence_guard_resets_witness :
    stepPhysics DEFAULT_PARAMS 1
        { time := .fin 2, y := .fin 5, v := .nan, a := .fin 0,
          hasLanded := false } =
      { time := .fin 0, y := .fin 200, v := .fin 0, a := .fin (-9.81),
        hasLanded := false } :=
  divergence_guard_resets DEFAULT_PARAMS 1 _ (by norm_num) rfl rfl

lemma add_fin_zero (n : JSNum) : n.add (.fin 0) = n := by
  cases n <;> simp [JSNum.add]

lemma codeAccel_eq_specAccel (p : SimulationParams) (v : ℝ) :
    codeAccel p v = specAccel p v := by
  unfold codeAccel specAccel specDragForce
  split_ifs <;> ring_nf

lemma sgn_abs_le_one (x : ℝ) : |sgn x| ≤ 1 := by
  unfold sgn
  split_ifs <;> norm_num

/-- C3: for every valid params value, every dt ≥ 0 and every non-landed input
state accepted by the divergence guard (finite v, non-NaN y), the state
`stepPhysics` returns carries a finite velocity of magnitude at most 500. -/
theorem velocity_clamp_bound (p : SimulationParams) (dt : ℝ)
    (s : SimulationState) (hp : ValidParams p) (_hdt : 0 ≤ dt)
    (hl : s.hasLanded = false) (hy : s.y.isNaN = false)
    (vv : ℝ) (hv : s.v = .fin vv) :
    ∃ w : ℝ, (stepPhysics p dt s).v = .fin w ∧ |w| ≤ 500 := by
  have hm : p.mass ≠ 0 := ne_of_gt hp.1
  rw [stepPhysics_eval p dt s hm hl hy vv hv]
  split_ifs with h
  · exact ⟨0, rfl, by norm_num⟩
  · refine ⟨newVel p dt vv, rfl, ?_⟩
    unfold newVel
    split_ifs with h2
    · rw [abs_mul]
      have h3 := sgn_abs_le_one (vv + codeAccel p vv * dt)
      have h4 : |(500:ℝ)| = 500 := by norm_num
      nlinarith [abs_nonneg (sgn (vv + codeAccel p vv * dt))]
    · exact not_lt.mp h2

/-- Witness for C3 at the default params and the initial drop state. -/
theorem velocity_clamp_bound_witness :
    ∃ w : ℝ,
      (stepPhysics DEFAULT_PARAMS 1
          { time := .fin 0, y := .fin 200, v := .fin 0, a := .fin (-9.81),
            hasLanded := false }).v = .fin w ∧ |w| ≤ 500 :=
  velocity_clamp_bound DEFAULT_PARAMS 1 _
    (by norm_num [ValidParams, DEFAULT_PARAMS]) (by norm_num) rfl rfl 0 rfl

/-- C5: on the well-behaved domain (finite non-landed state, valid params,
dt ≥ 0, no clamp, no collision) `stepPhysics` returns exactly the
semi-implicit Euler reference state built from the spec's force model, and
with zero drag coefficient or zero air density the acceleration is exactly
`-gravity`. -/
theorem step_matches_semi_implicit_euler (p : SimulationParams) (dt : ℝ)
    (s : SimulationState) (hp : ValidParams p) (_hdt : 0 ≤ dt)
    (hl : s.hasLanded = false) (t yv vv av : ℝ)
    (ht : s.time = .fin t) (hy : s.y = .fin yv) (hv : s.v = .fin vv)
    (_ha : s.a = .fin av)
    (hclamp : |vv + specAccel p vv * dt| ≤ 500)
    (hground : 0 < yv + (vv + specAccel p vv * dt) * dt) :
    stepPhysics p dt s =
      { time := .fin (t + dt),
        y := .fin (yv + (vv + specAccel p vv * dt) * dt),
        v := .fin (vv + specAccel p vv * dt), a := .fin (specAccel p vv),
        hasLanded := false } ∧
    (p.dragCoeff = 0 ∨ p.airDensity = 0 → specAccel p vv = -p.gravity) := by
  have hm : p.mass ≠ 0 := ne_of_gt hp.1
  have hacc : codeAccel p vv = specAccel p vv := codeAccel_eq_specAccel p vv
  constructor
  · have hyn : s.y.isNaN = false := by rw [hy]; rfl
    have hnv : newVel p dt vv = vv + specAccel p vv * dt := by
      unfold newVel
      rw [hacc, if_neg (not_lt.mpr hclamp)]
    have hnp : newPos p dt s vv =
        .fin (yv + (vv + specAccel p vv * dt) * dt) := by
      unfold newPos
      rw [hy, hnv, add_fin_fin]
    rw [stepPhysics_eval p dt s hm hl hyn vv hv, hnp, hnv, hacc, ht,
      add_fin_fin]
    rw [if_neg]
    simp only [jle_fin_fin, decide_eq_true_eq]
    exact not_le.mpr hground
  · intro h
    unfold specAccel specDragForce
    rcases h with h | h <;> rw [h] <;> split_ifs <;> field_simp <;> ring

/-- Witness for C5: one free-fall step of the default params from rest. -/
theorem step_matches_semi_implicit_euler_witness :
    stepPhysics DEFAULT_PARAMS 0.01
        { time := .fin 0, y := .fin 200, v := .fin 0, a := .fin (-9.81),
          hasLanded := false } =
      { time := .fin (0 + 0.01),
        y := .fin (200 + (0 + specAccel DEFAULT_PARAMS 0 * 0.01) * 0.01),
        v := .fin (0 + specAccel DEFAULT_PARAMS 0 * 0.01),
        a := .fin (specAccel DEFAULT_PARAMS 0), hasLanded := false } ∧
    (DEFAULT_PARAMS.dragCoeff = 0 ∨ DEFAULT_PARAMS.airDensity = 0 →
      specAccel DEFAULT_PARAMS 0 = -DEFAULT_PARAMS.gravity) :=
  step_matches_semi_implicit_euler DEFAULT_PARAMS 0.01 _
    (by norm_num [ValidParams, DEFAULT_PARAMS]) (by norm_num) rfl 0 200 0
    (-9.81) rfl rfl rfl rfl
    (by norm_num [specAccel, specDragForce, DEFAULT_PARAMS, abs_le])
    (by norm_num [specAccel, specDragForce, DEFAULT_PARAMS])

lemma zero_jle_of_not_jle_zero (y : JSNum) (w : ℝ) (hy : y.isNaN = false)
    (h : (y.add (.fin w)).jle (.fin 0) = false) :
    (JSNum.fin 0).jle (y.add (.fin w)) = true := by
  cases y with
  | nan => simp [JSNum.isNaN] at hy
  | inf b => cases b <;> simp_all [JSNum.add, JSNum.jle]
  | fin yv =>
      simp only [add_fin_fin, jle_fin_fin, decide_eq_false_iff_not,
        decide_eq_true_eq, not_le] at h ⊢
      linarith

/-- C6: for every valid params value, every dt ≥ 0 and every non-landed
guard-accepted input state, `stepPhysics` returns the terminal state
`{y:0, v:0, a:0, time:time+dt, hasLanded:true}` exactly when the integrated
position is at or below ground, and otherwise the non-landed state
`{y:y', v:v', a, time:time+dt, hasLanded:false}`; in both cases — and also
after a reset to the initial drop configuration — the returned height
satisfies `y ≥ 0`. -/
theorem ground_collision_terminal (p : SimulationParams) (dt : ℝ)
    (s : SimulationState) (hp : ValidParams p) (_hdt : 0 ≤ dt)
    (hl : s.hasLanded = false) (hy : s.y.isNaN = false)
    (vv : ℝ) (hv : s.v = .fin vv) :
    ((newPos p dt s vv).jle (.fin 0) = true →
      stepPhysics p dt s =
        { time := s.time.add (.fin dt), y := .fin 0, v := .fin 0, a := .fin 0,
          hasLanded := true }) ∧
    ((newPos p dt s vv).jle (.fin 0) = false →
      stepPhysics p dt s =
        { time := s.time.add (.fin dt), y := newPos p dt s vv,
          v := .fin (newVel p dt vv), a := .fin (codeAccel p vv),
          hasLanded := false }) ∧
    (JSNum.fin 0).jle (stepPhysics p dt s).y = true ∧
    (JSNum.fin 0).jle (initialDropState p).y = true := by
  have hm : p.mass ≠ 0 := ne_of_gt hp.1
  rw [stepPhysics_eval p dt s hm hl hy vv hv]
  refine ⟨?_, ?_, ?_, ?_⟩
  · intro h; rw [if_pos h]
  · intro h; rw [if_neg (by simp [h])]
  · split_ifs with h
    · simp [jle_fin_fin]
    · exact zero_jle_of_not_jle_zero s.y (newVel p dt vv * dt) hy
        (by simpa [newPos] using eq_false_of_ne_true h)
  · simp only [initialDropState, jle_fin_fin, decide_eq_true_eq]
    exact hp.2.1.le

/-- Witness for C6: the no-collision branch of one free-fall step at the
default params, with the returned height nonnegative. -/
theorem ground_collision_terminal_witness :
    ((newPos DEFAULT_PARAMS 1
        { time := .fin 0, y := .fin 200, v := .fin 0, a := .fin (-9.81),
          hasLanded := false } 0).jle (.fin 0) = false →
      stepPhysics DEFAULT_PARAMS 1
          { time := .fin 0, y := .fin 200, v := .fin 0, a := .fin (-9.81),
            hasLanded := false } =
        { time := (JSNum.fin 0).add (.fin 1),
          y := newPos DEFAULT_PARAMS 1
            { time := .fin 0, y := .fin 200, v := .fin 0, a := .fin (-9.81),
              hasLanded := false } 0,
          v := .fin (newVel DEFAULT_PARAMS 1 0),
          a := .fin (codeAccel DEFAULT_PARAMS 0), hasLanded := false }) ∧
    (JSNum.fin 0).jle
      (stepPhysics DEFAULT_PARAMS 1
        { time := .fin 0, y := .fin 200, v := .fin 0, a := .fin (-9.81),
          hasLanded := false }).y = true :=
  ⟨((ground_collision_terminal DEFAULT_PARAMS 1
      { time := .fin 0, y := .fin 200, v := .fin 0, a := .fin (-9.81),
        hasLanded := false }
      (by norm_num [ValidParams, DEFAULT_PARAMS]) (by norm_num) rfl rfl 0
      rfl).2).1,
   (((ground_collision_terminal DEFAULT_PARAMS 1
      { time := .fin 0, y := .fin 200, v := .fin 0, a := .fin (-9.81),
        hasLanded := false }
      (by norm_num [ValidParams, DEFAULT_PARAMS]) (by norm_num) rfl rfl 0
      rfl).2).2).1⟩

lemma codeAccel_default_zero : codeAccel DEFAULT_PARAMS 0 = -9.81 := by
  norm_num [codeAccel, DEFAULT_PARAMS]

/-- Counterexample for C7: stepping the default params with dt = 0 from a
supplied state whose `a` field is 7 does not return the state unchanged — the
`a` field is overwritten with the derived acceleration `-9.81`. -/
theorem step_dt_zero_changes_accel :
    stepPhysics DEFAULT_PARAMS 0
        { time := .fin 0, y := .fin 200, v := .fin 0, a := .fin 7,
          hasLanded := false } ≠
      { time := .fin 0, y := .fin 200, v := .fin 0, a := .fin 7,
        hasLanded := false } := by
  have hnv : newVel DEFAULT_PARAMS 0 0 = 0 := by
    norm_num [newVel, codeAccel_default_zero]
  have h := stepPhysics_eval DEFAULT_PARAMS 0
    { time := .fin 0, y := .fin 200, v := .fin 0, a := .fin 7,
      hasLanded := false }
    (by norm_num [DEFAULT_PARAMS]) rfl rfl 0 rfl
  rw [h]
  rw [if_neg (by norm_num [newPos, hnv, add_fin_fin, jle_fin_fin])]
  simp only [SimulationState.mk.injEq, codeAccel_default_zero, ne_eq, not_and]
  intro _ _ _ h4
  have := JSNum.fin.inj h4
  norm_num at this

/-- C7 amended: stepping with dt = 0 returns a landed state verbatim; on a
non-landed guard-accepted state with positive finite height and velocity of
magnitude at most 500 it leaves time, y, v and hasLanded unchanged, but
overwrites the `a` field with the acceleration derived from v and the params
(so `a` is unchanged only when it already equals that derived value); for
states rejected by the divergence guard it resets instead. -/
theorem step_dt_zero_identity (p : SimulationParams) (s : SimulationState)
    (hp : ValidParams p) :
    (s.hasLanded = true → stepPhysics p 0 s = s) ∧
    (∀ yv vv : ℝ, s.hasLanded = false → s.y = .fin yv → s.v = .fin vv →
      0 < yv → |vv| ≤ 500 →
      stepPhysics p 0 s =
        { time := s.time, y := s.y, v := s.v, a := .fin (codeAccel p vv),
          hasLanded := false }) := by
  have hm : p.mass ≠ 0 := ne_of_gt hp.1
  constructor
  · intro hl
    simp [stepPhysics, hl]
  · intro yv vv hl hy hv hypos hvb
    have hyn : s.y.isNaN = false := by rw [hy]; rfl
    have hv1 : vv + codeAccel p vv * 0 = vv := by ring
    have hnv : newVel p 0 vv = vv := by
      rw [newVel, hv1, if_neg (not_lt.mpr hvb)]
    have hnp : newPos p 0 s vv = s.y := by
      rw [newPos, hnv, hy, add_fin_fin]
      norm_num
    rw [stepPhysics_eval p 0 s hm hl hyn vv hv, hnp, hnv]
    rw [if_neg (by simp [hy, jle_fin_fin]; linarith)]
    rw [add_fin_zero, hv]

/-- Witness for C7 amended: a dt = 0 step at the default params from the
initial drop state keeps time, y, v and hasLanded and derives `a`. -/
theorem step_dt_zero_identity_witness :
    stepPhysics DEFAULT_PARAMS 0
        { time := .fin 0, y := .fin 200, v := .fin 0, a := .fin (-9.81),
          hasLanded := false } =
      { time := .fin 0, y := .fin 200, v := .fin 0,
        a := .fin (codeAccel DEFAULT_PARAMS 0), hasLanded := false } :=
  (step_dt_zero_identity DEFAULT_PARAMS
      { time := .fin 0, y := .fin 200, v := .fin 0, a := .fin (-9.81),
        hasLanded := false }
      (by norm_num [ValidParams, DEFAULT_PARAMS])).2
    200 0 rfl rfl rfl (by norm_num) (by norm_num)

lemma substep_budget_decreases (d : ℝ) (h : ¬ d ≤ 0) :
    Nat.ceil ((d - min d 0.01) * 100) < Nat.ceil (d * 100) := by
  push_neg at h
  rcases le_or_lt d 0.01 with h1 | h1
  · rw [min_eq_left h1]
    simp only [sub_self, zero_mul, Nat.ceil_zero]
    exact Nat.ceil_pos.mpr (by positivity)
  · rw [min_eq_right h1.le]
    have h3 : 1 ≤ Nat.ceil (d * 100) := Nat.one_le_ceil_iff.mpr (by linarith)
    have h4 : Nat.ceil ((d - 0.01) * 100) ≤ Nat.ceil (d * 100) - 1 := by
      rw [Nat.ceil_le, Nat.cast_sub h3]
      have := Nat.le_ceil (d * 100)
      push_cast
      linarith
    omega

lemma substepCount_le_ceil (d : ℝ) : substepCount d ≤ Nat.ceil (d * 100) := by
  suffices h : ∀ (n : ℕ) (e : ℝ), Nat.ceil (e * 100) ≤ n →
      substepCount e ≤ Nat.ceil (e * 100) by
    exact h (Nat.ceil (d * 100)) d le_rfl
  intro n
  induction n with
  | zero =>
      intro e he
      rw [substepCount]
      split_ifs with h0
      · simp
      · exact absurd (substep_budget_decreases e h0) (by omega)
  | succ n ih =>
      intro e he
      rw [substepCount]
      split_ifs with h0
      · simp
      · have hdec := substep_budget_decreases e h0
        have := ih (e - min e 0.01) (by omega)
        omega

lemma substepCount_hundredth (k : ℕ) : substepCount ((k : ℝ) / 100) = k := by
  induction k with
  | zero =>
      rw [substepCount]
      norm_num
  | succ k ih =>
      rw [substepCount]
      push_cast
      rw [dif_neg (not_le.mpr (by positivity : (0:ℝ) < ((k : ℝ) + 1) / 100))]
      rw [min_eq_right (by
        have : (0:ℝ) ≤ (k : ℝ) := Nat.cast_nonneg k
        rw [show (0.01 : ℝ) = 1 / 100 by norm_num]
        rw [div_le_div_iff₀ (by norm_num) (by norm_num)]
        linarith)]
      rw [show ((k : ℝ) + 1) / 100 - 0.01 = (k : ℝ) / 100 by
        rw [show (0.01 : ℝ) = 1 / 100 by norm_num]; ring]
      rw [ih]
      omega

/-- Counterexample for C2: an `animate` tick whose raw frame delta is 200 ms
(clamped to 0.1 s) at the UI-maximum `timeScale = 5` runs 50 Integrator
sub-steps, exceeding the claimed bound of 10. -/
theorem animate_substeps_exceed_ten :
    animateSubsteps 0 200 5 = 50 ∧ 10 < 50 := by
  constructor
  · unfold animateSubsteps
    rw [show min ((200 - 0 : ℝ) / 1000) 0.1 * 5 = (50 : ℕ) / 100 by
      rw [min_eq_right (by norm_num)]; norm_num]
    exact substepCount_hundredth 50
  · norm_num

/-- C2 amended: for monotone timestamps and `0 ≤ timeScale ≤ 5` (the UI slider
maximum) a single `animate` call runs at most 50 Integrator sub-steps —
the clamp bounds `scaledDt` by `0.1 * timeScale`, and the bound 10 of the
original claim holds exactly when `timeScale ≤ 1`. -/
theorem animate_substeps_bound (lastTime nowTime timeScale : ℝ)
    (h0 : 0 ≤ timeScale) (h5 : timeScale ≤ 5) :
    animateSubsteps lastTime nowTime timeScale ≤ 50 ∧
    (timeScale ≤ 1 → animateSubsteps lastTime nowTime timeScale ≤ 10) := by
  have hbudget : min ((nowTime - lastTime) / 1000) 0.1 * timeScale ≤
      0.1 * timeScale :=
    mul_le_mul_of_nonneg_right (min_le_right _ _) h0
  have hle := substepCount_le_ceil
    (min ((nowTime - lastTime) / 1000) 0.1 * timeScale)
  constructor
  · have : Nat.ceil (min ((nowTime - lastTime) / 1000) 0.1 * timeScale * 100) ≤
        50 := Nat.ceil_le.mpr (by nlinarith)
    exact le_trans hle this
  · intro h1
    have : Nat.ceil (min ((nowTime - lastTime) / 1000) 0.1 * timeScale * 100) ≤
        10 := Nat.ceil_le.mpr (by nlinarith)
    exact le_trans hle this

/-- Witness for C2 amended at a 100 ms frame and normal speed. -/
theorem animate_substeps_bound_witness :
    animateSubsteps 0 100 1 ≤ 50 ∧
    ((1:ℝ) ≤ 1 → animateSubsteps 0 100 1 ≤ 10) :=
  animate_substeps_bound 0 100 1 (by norm_num) (by norm_num)

/-- C8: the history buffer never exceeds 500 points after a tick update or a
reset; when the sampler fires, the tick keeps exactly the most recent 500
entries of the appended buffer (evicting from the front, a no-op while the
buffer is within the cap); and the sampler fires exactly when (a) no prior
point exists, (b) current time minus the last sampled time exceeds 0.03 s, or
(c) the state is landed. -/
theorem history_buffer_bounded (prev : List DataPoint) (s : SimulationState)
    (p : SimulationParams) (hlen : prev.length ≤ 500) :
    (updateHistory prev s).length ≤ 500 ∧
    (shouldSample prev s = false → updateHistory prev s = prev) ∧
    (shouldSample prev s = true →
      updateHistory prev s =
        (prev ++ [mkDataPoint s]).drop ((prev ++ [mkDataPoint s]).length - 500)) ∧
    (prev = [] → shouldSample prev s = true) ∧
    (s.hasLanded = true → shouldSample prev s = true) ∧
    (∀ lp, prev.getLast? = some lp →
      shouldSample prev s =
        ((JSNum.fin 0.03).jlt (s.time.sub lp.time) || s.hasLanded)) ∧
    (resetHistory p).length ≤ 500 := by
  refine ⟨?_, ?_, ?_, ?_, ?_, ?_, ?_⟩
  · simp only [updateHistory]
    split_ifs with h1 h2
    · rw [List.length_drop]
      omega
    · rw [List.length_append] at h2 ⊢
      simp only [List.length_singleton] at h2 ⊢
      omega
    · exact hlen
  · intro h
    simp [updateHistory, h]
  · intro h
    simp only [updateHistory, h, if_true]
    split_ifs with h2
    · rfl
    · rw [Nat.sub_eq_zero_of_le (not_lt.mp h2), List.drop_zero]
  · intro h
    simp [shouldSample, h]
  · intro h
    unfold shouldSample
    cases prev.getLast? <;> simp [h]
  · intro lp hlp
    simp [shouldSample, hlp]
  · simp [resetHistory]

/-- Witness for C8 at the empty buffer and the initial drop state. -/
theorem history_buffer_bounded_witness :
    (updateHistory []
      { time := .fin 0, y := .fin 200, v := .fin 0, a := .fin (-9.81),
        hasLanded := false }).length ≤ 500 ∧
    ([] = ([] : List DataPoint) → shouldSample []
      { time := .fin 0, y := .fin 200, v := .fin 0, a := .fin (-9.81),
        hasLanded := false } = true) ∧
    (resetHistory DEFAULT_PARAMS).length ≤ 500 := by
  have h := history_buffer_bounded []
    { time := .fin 0, y := .fin 200, v := .fin 0, a := .fin (-9.81),
      hasLanded := false }
    DEFAULT_PARAMS (by norm_num)
  exact ⟨h.1, h.2.2.2.1, h.2.2.2.2.2.2⟩

/-- Counterexample for C9: params with positive drag coefficient and air
density (a very heavy, small, low-drag configuration dropped from 2 m) whose
terminal velocity 40 m/s is at or above the chart's y-axis cap, so
src/components/Graphs.tsx publishes no terminal-velocity reference value even
though drag and density are positive. -/
theorem terminal_velocity_ref_omitted_despite_drag :
    0 < ({ mass := 100 * Real.pi, height := 2, dragCoeff := 1, airDensity := 1,
           diameter := 2, gravity := 8, timeScale := 1 } :
            SimulationParams).dragCoeff ∧
    0 < ({ mass := 100 * Real.pi, height := 2, dragCoeff := 1, airDensity := 1,
           diameter := 2, gravity := 8, timeScale := 1 } :
            SimulationParams).airDensity ∧
    terminalVelocityGraphsTsx
        { mass := 100 * Real.pi, height := 2, dragCoeff := 1, airDensity := 1,
          diameter := 2, gravity := 8, timeScale := 1 } = none := by
  refine ⟨by norm_num, by norm_num, ?_⟩
  simp only [terminalVelocityGraphsTsx]
  rw [if_pos (by norm_num : (0:ℝ) < 8), if_pos (by norm_num : (0:ℝ) < 2),
    if_pos (⟨by norm_num, by norm_num, by positivity, by positivity⟩ :
      (0:ℝ) < 1 ∧ (0:ℝ) < 1 ∧ 0 < Real.pi * (2 / 2) * (2 / 2) ∧
        (0:ℝ) < 100 * Real.pi)]
  rw [if_neg]
  rintro ⟨-, -, hlt⟩
  rw [show 2 * (100 * Real.pi) * 8 / (1 * (Real.pi * (2 / 2) * (2 / 2)) * 1) =
      (1600 : ℝ) by field_simp; ring] at hlt
  rw [show (1600 : ℝ) = 40 ^ 2 by norm_num,
    Real.sqrt_sq (by norm_num : (0:ℝ) ≤ 40)] at hlt
  have h32 : Real.sqrt (2 * 8 * 2 : ℝ) ≤ 6 := by
    have h := Real.sqrt_le_sqrt (by norm_num : (2 * 8 * 2 : ℝ) ≤ 36)
    rwa [show (36 : ℝ) = 6 ^ 2 by norm_num,
      Real.sqrt_sq (by norm_num : (0:ℝ) ≤ 6)] at h
  have hceil : ((Int.ceil (Real.sqrt (2 * 8 * 2 : ℝ) * 1.1) : ℤ) : ℝ) ≤ 7 := by
    have h7 : Int.ceil (Real.sqrt (2 * 8 * 2 : ℝ) * 1.1) ≤ (7 : ℤ) := by
      apply Int.ceil_le.mpr
      push_cast
      have := mul_le_mul_of_nonneg_right h32 (by norm_num : (0:ℝ) ≤ 1.1)
      linarith
    exact_mod_cast h7
  have hmax : max (10:ℝ)
      ((Int.ceil (Real.sqrt (2 * 8 * 2 : ℝ) * 1.1) : ℤ) : ℝ) ≤ 10 :=
    max_le le_rfl (by linarith)
  linarith

/-- C9 amended: for every valid params value, the part_002 charting boundary
publishes the terminal velocity `sqrt(2·m·g/(ρ·A·Cd))` exactly when drag
coefficient and air density are positive and null when either is zero, while
the src/components/Graphs.tsx variant additionally requires the value to lie
strictly below the y-axis cap `max(10, ceil(1.1·sqrt(2·g·h)))` before
publishing it (and is also null when either drag input is zero). -/
theorem terminal_velocity_reference (p : SimulationParams) (hp : ValidParams p) :
    (0 < p.dragCoeff → 0 < p.airDensity →
      terminalVelocityPart002 p = some (specTerminalVelocity p)) ∧
    (p.dragCoeff = 0 ∨ p.airDensity = 0 → terminalVelocityPart002 p = none) ∧
    (0 < p.dragCoeff → 0 < p.airDensity →
      specTerminalVelocity p <
        max 10 ((Int.ceil (Real.sqrt (2 * p.gravity * p.height) * 1.1) : ℤ) : ℝ) →
      terminalVelocityGraphsTsx p = some (specTerminalVelocity p)) ∧
    (p.dragCoeff = 0 ∨ p.airDensity = 0 → terminalVelocityGraphsTsx p = none) := by
  obtain ⟨hm, hh, -, -, hd, hg, -⟩ := hp
  have harea : 0 < Real.pi * (p.diameter / 2) * (p.diameter / 2) := by
    have : 0 < p.diameter / 2 := by linarith
    positivity
  have hE : 2 * p.mass * p.gravity /
      (p.airDensity * (Real.pi * (p.diameter / 2) * (p.diameter / 2)) *
        p.dragCoeff) =
      2 * p.mass * p.gravity /
        (p.airDensity * (Real.pi * (p.diameter / 2) ^ 2) * p.dragCoeff) := by
    ring_nf
  refine ⟨?_, ?_, ?_, ?_⟩
  · intro hcd hρ
    simp only [terminalVelocityPart002]
    have hc1 : 0 < p.dragCoeff ∧ 0 < p.airDensity ∧
        0 < Real.pi * (p.diameter / 2) * (p.diameter / 2) := ⟨hcd, hρ, harea⟩
    have hc2 : 0 < p.dragCoeff ∧ 0 < p.airDensity := ⟨hcd, hρ⟩
    rw [if_pos hc1, if_pos hc2, hE, ← specTerminalVelocity]
  · intro h
    simp only [terminalVelocityPart002]
    rw [if_neg]
    rintro ⟨h1, h2⟩
    rcases h with h | h
    · rw [h] at h1; exact lt_irrefl 0 h1
    · rw [h] at h2; exact lt_irrefl 0 h2
  · intro hcd hρ hlt
    simp only [terminalVelocityGraphsTsx]
    have hc1 : 0 < p.dragCoeff ∧ 0 < p.airDensity ∧
        0 < Real.pi * (p.diameter / 2) * (p.diameter / 2) ∧ 0 < p.mass :=
      ⟨hcd, hρ, harea, hm⟩
    rw [if_pos hg, if_pos hh, if_pos hc1, hE, ← specTerminalVelocity]
    have hc2 : 0 < p.dragCoeff ∧ 0 < p.airDensity ∧
        specTerminalVelocity p <
          max 10 ((Int.ceil (Real.sqrt (2 * p.gravity * p.height) * 1.1) : ℤ) : ℝ) :=
      ⟨hcd, hρ, hlt⟩
    rw [if_pos hc2]
  · intro h
    simp only [terminalVelocityGraphsTsx]
    rw [if_neg]
    rintro ⟨h1, h2, -⟩
    rcases h with h | h
    · rw [h] at h1; exact lt_irrefl 0 h1
    · rw [h] at h2; exact lt_irrefl 0 h2

/-- Witness for C9 amended at the default params. -/
theorem terminal_velocity_reference_witness :
    (0 < DEFAULT_PARAMS.dragCoeff → 0 < DEFAULT_PARAMS.airDensity →
      terminalVelocityPart002 DEFAULT_PARAMS =
        some (specTerminalVelocity DEFAULT_PARAMS)) ∧
    (DEFAULT_PARAMS.dragCoeff = 0 ∨ DEFAULT_PARAMS.airDensity = 0 →
      terminalVelocityPart002 DEFAULT_PARAMS = none) ∧
    (0 < DEFAULT_PARAMS.dragCoeff → 0 < DEFAULT_PARAMS.airDensity →
      specTerminalVelocity DEFAULT_PARAMS <
        max 10 ((Int.ceil (Real.sqrt
          (2 * DEFAULT_PARAMS.gravity * DEFAULT_PARAMS.height) * 1.1) : ℤ) : ℝ) →
      terminalVelocityGraphsTsx DEFAULT_PARAMS =
        some (specTerminalVelocity DEFAULT_PARAMS)) ∧
    (DEFAULT_PARAMS.dragCoeff = 0 ∨ DEFAULT_PARAMS.airDensity = 0 →
      terminalVelocityGraphsTsx DEFAULT_PARAMS = none) :=
  terminal_velocity_reference DEFAULT_PARAMS
    (by norm_num [ValidParams, DEFAULT_PARAMS])

lemma codeAccel_noDrag_example :
    codeAccel
      { mass := 1, height := 1, dragCoeff := 0, airDensity := 0,
        diameter := 1, gravity := 10, timeScale := 1 } (-600) = -10 := by
  norm_num [codeAccel, sgn]

lemma newVel_clamped_example :
    newVel
      { mass := 1, height := 1, dragCoeff := 0, airDensity := 0,
        diameter := 1, gravity := 10, timeScale := 1 } 1 (-600) = -500 := by
  rw [newVel, codeAccel_noDrag_example]
  rw [show (-600 + -10 * 1 : ℝ) = -610 by norm_num]
  rw [if_pos (by rw [abs_of_nonpos (by norm_num)]; norm_num)]
  norm_num [sgn]

lemma unclampedVel_example :
    unclampedVel
      { mass := 1, height := 1, dragCoeff := 0, airDensity := 0,
        diameter := 1, gravity := 10, timeScale := 1 } 1 (-600) = -610 := by
  rw [unclampedVel, codeAccel_noDrag_example]
  norm_num

/-- Counterexample for C10: at an input outside the common well-behaved domain
(the clamp fires: |v + a·dt| = 610 > 500), the two integrator variants do NOT
differ — both collide with the ground and return the identical terminal
state. -/
theorem variants_agree_outside_domain :
    500 < |(-600 : ℝ) +
        codeAccel
          { mass := 1, height := 1, dragCoeff := 0, airDensity := 0,
            diameter := 1, gravity := 10, timeScale := 1 } (-600) * 1| ∧
    stepPhysics
        { mass := 1, height := 1, dragCoeff := 0, airDensity := 0,
          diameter := 1, gravity := 10, timeScale := 1 } 1
        { time := .fin 0, y := .fin 1, v := .fin (-600), a := .fin 0,
          hasLanded := false } =
      stepPhysicsOld
        { mass := 1, height := 1, dragCoeff := 0, airDensity := 0,
          diameter := 1, gravity := 10, timeScale := 1 } 1
        { time := .fin 0, y := .fin 1, v := .fin (-600), a := .fin 0,
          hasLanded := false } := by
  constructor
  · rw [codeAccel_noDrag_example,
      show (-600 + -10 * 1 : ℝ) = -610 by norm_num,
      abs_of_nonpos (by norm_num)]
    norm_num
  · rw [stepPhysics_eval
        { mass := 1, height := 1, dragCoeff := 0, airDensity := 0,
          diameter := 1, gravity := 10, timeScale := 1 } 1
        { time := .fin 0, y := .fin 1, v := .fin (-600), a := .fin 0,
          hasLanded := false } (by norm_num) rfl rfl (-600) rfl,
      stepPhysicsOld_eval
        { mass := 1, height := 1, dragCoeff := 0, airDensity := 0,
          diameter := 1, gravity := 10, timeScale := 1 } 1
        { time := .fin 0, y := .fin 1, v := .fin (-600), a := .fin 0,
          hasLanded := false } (by norm_num) rfl (-600) rfl]
    simp only [newPos, newVel_clamped_example, unclampedVel_example,
      add_fin_fin, jle_fin_fin]
    rw [if_pos (by norm_num), if_pos (by norm_num)]

/-- C10 amended: on the common well-behaved domain (finite non-landed state,
valid params, dt ≥ 0, |v + a·dt| ≤ 500 for the derived acceleration a) the two
`stepPhysics` variants return identical next states; outside that domain they
are not pointwise guaranteed to differ, but they do differ at some inputs: a
NaN velocity makes the newer variant reset while the older one propagates NaN,
and an active clamp without ground collision makes the emitted velocities
diverge. -/
theorem variants_agree_on_common_domain (p : SimulationParams) (dt : ℝ)
    (s : SimulationState) (hp : ValidParams p) (_hdt : 0 ≤ dt)
    (hl : s.hasLanded = false) (t yv vv av : ℝ)
    (_ht : s.time = .fin t) (hy : s.y = .fin yv) (hv : s.v = .fin vv)
    (_ha : s.a = .fin av)
    (hclamp : |vv + codeAccel p vv * dt| ≤ 500) :
    stepPhysics p dt s = stepPhysicsOld p dt s ∧
    stepPhysics DEFAULT_PARAMS 0
        { time := .fin 0, y := .fin 5, v := .nan, a := .fin 0,
          hasLanded := false } ≠
      stepPhysicsOld DEFAULT_PARAMS 0
        { time := .fin 0, y := .fin 5, v := .nan, a := .fin 0,
          hasLanded := false } ∧
    stepPhysics
        { mass := 1, height := 1, dragCoeff := 0, airDensity := 0,
          diameter := 1, gravity := 10, timeScale := 1 } 1
        { time := .fin 0, y := .fin 10000, v := .fin (-600), a := .fin 0,
          hasLanded := false } ≠
      stepPhysicsOld
        { mass := 1, height := 1, dragCoeff := 0, airDensity := 0,
          diameter := 1, gravity := 10, timeScale := 1 } 1
        { time := .fin 0, y := .fin 10000, v := .fin (-600), a := .fin 0,
          hasLanded := false } := by
  refine ⟨?_, ?_, ?_⟩
  · have hm : p.mass ≠ 0 := ne_of_gt hp.1
    have hyn : s.y.isNaN = false := by rw [hy]; rfl
    rw [stepPhysics_eval p dt s hm hl hyn vv hv,
      stepPhysicsOld_eval p dt s hm hl vv hv]
    have hnv : newVel p dt vv = unclampedVel p dt vv := by
      rw [newVel, unclampedVel, if_neg (not_lt.mpr hclamp)]
    simp only [newPos, hnv]
  · simp [stepPhysics, stepPhysicsOld, JSNum.isNaN, JSNum.isFinite, JSNum.beq,
      JSNum.mul, JSNum.add, JSNum.div, JSNum.sign, JSNum.neg, JSNum.jle,
      initialDropState, DEFAULT_PARAMS]
  · rw [stepPhysics_eval
        { mass := 1, height := 1, dragCoeff := 0, airDensity := 0,
          diameter := 1, gravity := 10, timeScale := 1 } 1
        { time := .fin 0, y := .fin 10000, v := .fin (-600), a := .fin 0,
          hasLanded := false } (by norm_num) rfl rfl (-600) rfl,
      stepPhysicsOld_eval
        { mass := 1, height := 1, dragCoeff := 0, airDensity := 0,
          diameter := 1, gravity := 10, timeScale := 1 } 1
        { time := .fin 0, y := .fin 10000, v := .fin (-600), a := .fin 0,
          hasLanded := false } (by norm_num) rfl (-600) rfl]
    simp only [newPos, newVel_clamped_example, unclampedVel_example,
      add_fin_fin, jle_fin_fin]
    rw [if_neg (by norm_num), if_neg (by norm_num)]
    simp only [ne_eq, SimulationState.mk.injEq, JSNum.fin.injEq, not_and]
    intro _ _ h3
    norm_num at h3

/-- Witness for C10 amended: the two variants agree on one free-fall step of
the default params from the initial drop state. -/
theorem variants_agree_on_common_domain_witness :
    stepPhysics DEFAULT_PARAMS 1
        { time := .fin 0, y := .fin 200, v := .fin 0, a := .fin (-9.81),
          hasLanded := false } =
      stepPhysicsOld DEFAULT_PARAMS 1
        { time := .fin 0, y := .fin 200, v := .fin 0, a := .fin (-9.81),
          hasLanded := false } :=
  (variants_agree_on_common_domain DEFAULT_PARAMS 1
      { time := .fin 0, y := .fin 200, v := .fin 0, a := .fin (-9.81),
        hasLanded := false }
      (by norm_num [ValidParams, DEFAULT_PARAMS]) (by norm_num) rfl 0 200 0
      (-9.81) rfl rfl rfl rfl
      (by rw [codeAccel_default_zero]; norm_num [abs_le])).1

end
